import Mathlib

/-!
Verification of the trade-dashboard data pipeline (`src/app.py`).

The Python program is a Streamlit dashboard: a cached Google-Sheets loader
(`get_data_from_sheet`), a four-field substring filter (the `filtered_df`
block), and three aggregation helpers (`create_trade_chart`,
`create_top_n_chart`, `create_balance_chart`) built on pandas
`groupby`/`sum`/`nlargest`.

This file shallowly embeds that pipeline:
* pandas cells are `Cell` (a string, a rational number, or the missing value
  NaN, written `Cell.null`); machine floats are modelled by `ℚ`;
* a pandas `DataFrame` is a column-name list plus a list of rows;
* code that can raise (`df[col]` on an absent column, `re.error` from
  `str.contains` compiling an invalid pattern, summing non-numeric data)
  returns `Except String _`; code that raises nothing is total;
* `Series.str.contains(pat, case=False, na=False)` keeps its pandas
  default `regex=True`: the stripped pattern is compiled (`reCompile`) and
  rows are kept by a case-insensitive `re.search` (`containsRe`);
* Streamlit UI calls (`st.error`, `st.warning`, ...) are modelled as a list
  of emitted `Msg` values; chart figures are modelled by the data that the
  code feeds into them;
* the external collaborators (gspread fetch, credential loading,
  `st.secrets`) are modelled by an `Env` value enumerating their possible
  outcomes, exactly the outcomes the `try/except` in the source distinguishes.
-/

/-- One pandas cell: a text cell, a numeric cell, or the missing value
(NaN / None).  Floats are modelled by `ℚ`. -/
inductive Cell where
  | str (s : String)
  | num (q : ℚ)
  | null
deriving DecidableEq, Repr

/-- `True` on the missing value. -/
def Cell.isNull : Cell → Bool
  | .null => true
  | _ => false

/-- `True` on numeric cells. -/
def Cell.isNum : Cell → Bool
  | .num _ => true
  | _ => false

/-- Numeric content of a cell, `0` for non-numeric cells (only used in
statements under an all-numeric hypothesis, where the default is dead). -/
def cellNumD : Cell → ℚ
  | .num q => q
  | _ => 0

/-- A pandas DataFrame: column names plus rows of cells.  Rows may in
principle be ragged; cell access pads with `Cell.null`, matching the
NaN-filling of `pd.DataFrame`. -/
structure DataFrame where
  columns : List String
  rows : List (List Cell)
deriving DecidableEq, Repr

/-- `pd.DataFrame()`: zero rows, no columns. -/
def emptyDF : DataFrame := ⟨[], []⟩

/-- `df.empty`: true when the frame has no rows or no columns. -/
def dfEmpty (df : DataFrame) : Bool := df.rows.isEmpty || df.columns.isEmpty

/-- Index of a column name in a header (first occurrence), `none` when the
column is absent — the case in which pandas `df[col]` raises `KeyError`. -/
def idxOf? (c : String) : List String → Option Nat
  | [] => none
  | x :: xs => if x = c then some 0 else (idxOf? c xs).map (· + 1)

/-- A Streamlit UI message (`st.write` debug text, `st.success`, `st.error`,
`st.info`, `st.warning`). -/
inductive Msg where
  | debug (s : String)
  | success (s : String)
  | error (s : String)
  | info (s : String)
  | warning (s : String)
deriving DecidableEq, Repr

/-- True on `st.error` diagnostics. -/
def Msg.isErr : Msg → Bool
  | .error _ => true
  | _ => false

/-! ### Numeric coercion (`pd.to_numeric(col, errors='coerce').fillna(0)`) -/

/-- Digit-string value (base 10). -/
def digitsVal (l : List Char) : Nat := l.foldl (fun a c => a * 10 + (c.toNat - 48)) 0

/-- All characters are decimal digits. -/
def allDigits (l : List Char) : Bool := l.all (·.isDigit)

/-- Strip leading and trailing whitespace from a character list
(Python `str.strip()` as invoked by the numeric parser and the filter). -/
def stripList (l : List Char) : List Char :=
  ((l.dropWhile Char.isWhitespace).reverse.dropWhile Char.isWhitespace).reverse

/-- `str.strip()` on strings. -/
def pyStrip (s : String) : String := ⟨stripList s.data⟩

/-- Parse an unsigned decimal literal `digits [. digits]` (at least one digit
overall, as accepted by `pd.to_numeric`); `none` when unparseable. -/
def parseUnsigned (l : List Char) : Option ℚ :=
  let intPart := l.takeWhile (· ≠ '.')
  match l.dropWhile (· ≠ '.') with
  | [] =>
    if !l.isEmpty && allDigits l then some (digitsVal l : ℚ) else none
  | _ :: frac =>
    if allDigits intPart && allDigits frac && (!intPart.isEmpty || !frac.isEmpty)
    then some ((digitsVal intPart : ℚ) + (digitsVal frac : ℚ) / (10 : ℚ) ^ frac.length)
    else none

/-- `pd.to_numeric(·, errors='coerce')` on one text cell: strip whitespace,
optional sign, decimal literal; `none` models the NaN produced for
unparseable text.  (Exotic forms such as exponent notation accepted by
pandas are outside the grammar; no claim depends on them.) -/
def toNumeric? (s : String) : Option ℚ :=
  match stripList s.data with
  | '+' :: r => parseUnsigned r
  | '-' :: r => (parseUnsigned r).map (fun q => -q)
  | r => parseUnsigned r

/-- The loader's per-cell coercion: parse text (unparseable text and NaN
become `0` via `fillna(0)`), keep numbers. -/
def coerceCell : Cell → Cell
  | .str s => .num ((toNumeric? s).getD 0)
  | .num q => .num q
  | .null => .num 0

/-- Import-metric column name. -/
def impCol : String := "นำเข้า"

/-- Export-metric column name. -/
def expCol : String := "ส่งออก"

/-- Year column name. -/
def yearCol : String := "ปี พ.ศ."

/-- The three numeric-designated columns of the loader
(`['นำเข้า', 'ส่งออก', 'ปี พ.ศ.']`). -/
def numeric_cols : List String := [impCol, expCol, yearCol]

/-- Country column name. -/
def countryCol : String := "ชื่อประเทศ"

/-- Customs-code column name. -/
def hsCol : String := "พิกัดศุลกากร"

/-- Item column name. -/
def itemCol : String := "รายการสินค้า"

/-- `df[c] = pd.to_numeric(df[c], errors='coerce').fillna(0)` for one column,
guarded by `if col in df.columns` as in the source. -/
def coerceOne (df : DataFrame) (c : String) : DataFrame :=
  match idxOf? c df.columns with
  | none => df
  | some j => ⟨df.columns, df.rows.map (fun r => r.set j (coerceCell (r.getD j .null)))⟩

/-- The loader's coercion loop `for col in numeric_cols: ...`. -/
def coerceDf (df : DataFrame) : DataFrame := numeric_cols.foldl coerceOne df

/-! ### The loader (`get_data_from_sheet`) and its cache -/

/-- Outcome of reaching the Remote Table Source, as distinguished by the
`except` clauses of `get_data_from_sheet`: the raw rows (header first), or
`gspread.exceptions.SpreadsheetNotFound`, or `FileNotFoundError` (missing
service-account key file), or any other exception (transport/auth/...). -/
inductive FetchErr where
  | spreadsheetNotFound
  | fileNotFound
  | other (msg : String)
deriving DecidableEq, Repr

/-- The external world of one `get_data_from_sheet` call: whether
`st.secrets.get("gcp_service_account")` is truthy, whether building the
gspread client from that secret succeeds, and the outcome of credential
loading + fetch. -/
structure Env where
  secretPresent : Bool
  secretClientOk : Bool
  fetch : Except FetchErr (List (List String))
deriving Repr

/-- `pd.DataFrame(data[1:], columns=data[0])`: header row becomes the
schema, remaining rows become records; short rows are NaN-padded to the
header width. -/
def buildDf (header : List String) (rest : List (List String)) : DataFrame :=
  ⟨header, rest.map (fun r => r.map Cell.str ++ List.replicate (header.length - r.length) Cell.null)⟩

/-- `get_data_from_sheet` (uncached body): every failure path is caught
inside the function and yields `pd.DataFrame()` plus `st.error`/`st.info`
diagnostics; the success path builds the frame and coerces the numeric
columns.  The function is total: nothing escapes its `try/except`. -/
def get_data_from_sheet (env : Env) : DataFrame × List Msg :=
  if env.secretPresent && !env.secretClientOk then
    (emptyDF, [.debug "Found gcp_service_account secret",
               .error "Failed to create gspread client from secret"])
  else
    match env.fetch with
    | .error .spreadsheetNotFound =>
      (emptyDF, [.error "Spreadsheet or sheet name not found", .info "Check SPREADSHEET_ID and SHEET_NAME"])
    | .error .fileNotFound =>
      (emptyDF, [.error "Service-account JSON file not found", .info "Check the uploaded key file"])
    | .error (.other m) =>
      (emptyDF, [.error ("Failed to fetch data: " ++ m), .info "Check service-account access and connectivity"])
    | .ok [] =>
      -- `data[0]` on an empty sheet raises IndexError, caught by `except Exception`.
      (emptyDF, [.error "Failed to fetch data: IndexError", .info "Check service-account access and connectivity"])
    | .ok (header :: rest) =>
      (coerceDf (buildDf header rest), [.success "Loaded data from Google Sheet"])

/-- The failure cases of `get_data_from_sheet`: secret present but client
creation fails, any exception reaching the fetch, or empty sheet data. -/
def loadFails (env : Env) : Bool :=
  (env.secretPresent && !env.secretClientOk) ||
    (match env.fetch with
     | .error _ => true
     | .ok [] => true
     | .ok (_ :: _) => false)

/-- The `@st.cache_data(ttl=300)` memo: the cached return value (the
DataFrame) and the time it was stored, if any. -/
structure Cache where
  entry : Option (DataFrame × Nat)
deriving DecidableEq, Repr

/-- One call through the cache decorator at time `now` (seconds): a fresh
entry within the 300-second TTL is returned without running the body; an
absent or expired entry runs the body (whatever it returns — including the
empty frame a failure produces — is stored).  The boolean reports whether
the body ran (i.e. whether the Remote Table Source was contacted). -/
def cachedGet (c : Cache) (now : Nat) (env : Env) : DataFrame × Cache × Bool :=
  match c.entry with
  | some (v, t) =>
    if now < t + 300 then (v, c, false)
    else
      let v' := (get_data_from_sheet env).1
      (v', ⟨some (v', now)⟩, true)
  | none =>
    let v := (get_data_from_sheet env).1
    (v, ⟨some (v, now)⟩, true)

/-- The caller's view (`if not df.empty:` ... `else: st.info(...)`): `true`
when the dashboard is rendered, `false` when the "no data" notice is shown. -/
def renderMain (env : Env) : Bool := !dfEmpty (get_data_from_sheet env).1

/-! ### The Filter Stage (the `filtered_df` block)

The source filters with
`df[col].astype(str).str.contains(pat.strip(), case=False, na=False)`.
`Series.str.contains` defaults to `regex=True`: the stripped pattern is
compiled as a Python regular expression with `re.IGNORECASE` (an invalid
pattern such as `"("` raises `re.error` even when the column is present)
and a row is kept when `re.search` succeeds on the cell's text rendering.
The model implements the regex fragment the patterns of this UI can use —
literal characters, `.`, alternation `|`, repetition `*` `+` `?`, and
groups `(...)` — by a recursive-descent parser plus Brzozowski-derivative
matching.  Constructs outside the fragment (escapes `\`, classes `[...]`,
bounded repetition `{m,n}`, anchors `^` `$`) make `reCompile` return
`none`; theorems that quantify over patterns only ever assume `reCompile`
*succeeded*, so the fragment boundary never makes a universal statement
about the program.  Case-insensitivity is modelled by ASCII
`Char.toLower` comparison (the Thai column values have no case). -/

/-- Character-list prefix test. -/
def isPrefList : List Char → List Char → Bool
  | [], _ => true
  | _ :: _, [] => false
  | a :: as, b :: bs => a = b && isPrefList as bs

/-- Substring test on character lists (`pat` occurs inside `hay`). -/
def hasSub : List Char → List Char → Bool
  | [], pat => isPrefList pat []
  | hay@(_ :: t), pat => isPrefList pat hay || hasSub t pat

/-- ASCII lowercase of a string. -/
def lowerStr (s : String) : String := ⟨s.data.map Char.toLower⟩

/-- The *spec side* of the filter claims: the case-insensitive literal
substring test ("the record's target column value, compared as text
case-insensitively, contains the trimmed pattern as a substring").  The
*program's* matching is `str.contains` with `regex=True`, modelled by
`reCompile`/`reSearch` below; the two agree only on metacharacter-free
patterns. -/
def containsCI (s pat : String) : Bool := hasSub (lowerStr s).data (lowerStr pat).data

/-- Least `k ≤ 40` with `den ∣ 10 ^ k`, when one exists (the denominators
of every value a binary float can hold are 10-smooth well inside this
bound). -/
def pow10exp (den : Nat) : Option Nat :=
  (List.range 41).find? (fun k => 10 ^ k % den = 0)

/-- Python `str()` of a float, for rationals with a finite decimal
expansion: sign, integer part, `'.'`, fractional digits with trailing
zeros trimmed — an integral value renders as `"2564.0"`, matching
`astype(str)` on a coerced (float64) numeric column.  A rational outside
the decimal-representable range falls back to a `num/den` rendering that
no float cell can produce. -/
def ratToFloatStr (q : ℚ) : String :=
  let sign := if q.num < 0 then "-" else ""
  match pow10exp q.den with
  | some k =>
    let scaled : Nat := q.num.natAbs * (10 ^ k / q.den)
    let ds := Nat.toDigits 10 scaled
    let ds' := List.replicate (k + 1 - ds.length) '0' ++ ds
    let ip : List Char := ds'.take (ds'.length - k)
    let fp := (ds'.drop (ds'.length - k)).reverse.dropWhile (fun c => c = '0')
    let fp' : List Char := if fp.isEmpty then ['0'] else fp.reverse
    sign ++ ⟨ip⟩ ++ "." ++ ⟨fp'⟩
  | none => sign ++ toString q.num.natAbs ++ "/" ++ toString q.den

/-- `series.astype(str)` on one cell: text stays itself, NaN becomes the
string `"nan"`, a number renders as Python `str()` of the float (the
loader's coerced columns are modelled as float64, the dtype produced
whenever any cell carried a decimal point or failed to parse; an
all-integer column would be int64 and render without `".0"` — a
documented residual approximation no claim touches). -/
def cellToStr : Cell → String
  | .str s => s
  | .num q => ratToFloatStr q
  | .null => "nan"

/-- Regular expressions of the modelled fragment. -/
inductive Re where
  | emp
  | eps
  | ch (c : Char)
  | dot
  | alt (a b : Re)
  | cat (a b : Re)
  | star (a : Re)
deriving DecidableEq, Repr

/-- The regex accepts the empty string. -/
def Re.nullable : Re → Bool
  | .emp => false
  | .eps => true
  | .ch _ => false
  | .dot => false
  | .alt a b => a.nullable || b.nullable
  | .cat a b => a.nullable && b.nullable
  | .star _ => true

/-- Brzozowski derivative by one input character; literal comparison is
case-insensitive (`re.IGNORECASE` from `case=False`) and `.` matches any
character except a newline, as in Python `re`. -/
def Re.deriv : Re → Char → Re
  | .emp, _ => .emp
  | .eps, _ => .emp
  | .ch lit, c => if lit.toLower = c.toLower then .eps else .emp
  | .dot, c => if c = '\n' then .emp else .eps
  | .alt a b, c => .alt (a.deriv c) (b.deriv c)
  | .cat a b, c =>
    if a.nullable then .alt (.cat (a.deriv c) b) (b.deriv c) else .cat (a.deriv c) b
  | .star a, c => .cat (a.deriv c) (.star a)

/-- The regex matches some prefix of the input. -/
def matchHere : Re → List Char → Bool
  | r, [] => r.nullable
  | r, c :: rest => r.nullable || matchHere (r.deriv c) rest

/-- `re.search`: the regex matches somewhere in the input. -/
def reSearch : Re → List Char → Bool
  | r, [] => r.nullable
  | r, s@(_ :: rest) => matchHere r s || reSearch r rest

/-- Metacharacters of the fragment's parser: the operators it implements
plus the heads of constructs left outside the fragment (`[`, `{`, `^`,
`$`, `\` and their closers), which it conservatively refuses. -/
def isMeta (c : Char) : Bool :=
  c = '|' || c = '*' || c = '+' || c = '?' || c = '(' || c = ')' ||
    c = '[' || c = ']' || c = '\x7b' || c = '\x7d' || c = '^' || c = '$' || c = '\\' || c = '.'

mutual

/-- Parse an alternation `concat ('|' concat)*`. -/
def parseA : Nat → List Char → Option (Re × List Char)
  | 0, _ => none
  | fuel + 1, s =>
    match parseC fuel s with
    | none => none
    | some (r, rest) =>
      match rest with
      | '|' :: rest' =>
        match parseA fuel rest' with
        | some (r2, rest2) => some (.alt r r2, rest2)
        | none => none
      | _ => some (r, rest)

/-- Parse a (possibly empty) concatenation of repeated atoms. -/
def parseC : Nat → List Char → Option (Re × List Char)
  | 0, _ => none
  | fuel + 1, s =>
    match parseP fuel s with
    | none => some (.eps, s)
    | some (r, rest) =>
      match parseC fuel rest with
      | some (r2, rest2) => some (.cat r r2, rest2)
      | none => none

/-- Parse one atom with an optional `*`/`+`/`?` postfix (a second postfix
operator in a row is not an atom, so `a**` fails as in Python). -/
def parseP : Nat → List Char → Option (Re × List Char)
  | 0, _ => none
  | fuel + 1, s =>
    match parseAtom fuel s with
    | none => none
    | some (r, rest) =>
      match rest with
      | '*' :: rest' => some (.star r, rest')
      | '+' :: rest' => some (.cat r (.star r), rest')
      | '?' :: rest' => some (.alt r .eps, rest')
      | _ => some (r, rest)

/-- Parse an atom: a group, `.`, or a literal (non-meta) character. -/
def parseAtom : Nat → List Char → Option (Re × List Char)
  | 0, _ => none
  | fuel + 1, s =>
    match s with
    | '(' :: rest =>
      (match parseA fuel rest with
       | some (r, ')' :: rest') => some (r, rest')
       | _ => none)
    | '.' :: rest => some (.dot, rest)
    | c :: rest => if isMeta c then none else some (.ch c, rest)
    | [] => none

end

/-- `re.compile` on the fragment: the whole pattern must parse.  `none`
models `re.error` for genuinely invalid patterns (witnessed at `"("`) and
marks out-of-fragment constructs, about which no universal theorem speaks. -/
def reCompile (pat : String) : Option Re :=
  match parseA (4 * (pat.length + 1)) pat.data with
  | some (r, []) => some r
  | _ => none

/-- The program's row test: `re.search` of the compiled pattern on the
cell's text rendering. -/
def containsRe (r : Re) (s : String) : Bool := reSearch r s.data

/-- The four sidebar text inputs (country, customs code, item, year);
an empty string is the widget's "nothing entered" value. -/
structure FilterCriteria where
  country : String := ""
  hsCode : String := ""
  item : String := ""
  year : String := ""
deriving DecidableEq, Repr

/-- One `if <input>: filtered_df = filtered_df[filtered_df[col].astype(str)
.str.contains(<input>.strip(), case=False, na=False)]` step.  A falsy
(empty) input leaves the frame untouched; otherwise `df[col]` raises
`KeyError` when `col` is absent; otherwise the stripped pattern is
compiled as a regex (`re.error` when invalid) and rows are kept by
`re.search` on the cell's text rendering. -/
def applyCrit (df : DataFrame) (col pat : String) : Except String DataFrame :=
  if pat = "" then .ok df
  else
    match idxOf? col df.columns with
    | none => .error ("KeyError: " ++ col)
    | some j =>
      match reCompile (pyStrip pat) with
      | none => .error "re.error"
      | some re0 =>
        .ok ⟨df.columns, df.rows.filter (fun r => containsRe re0 (cellToStr (r.getD j .null)))⟩

/-- The whole filter block: `filtered_df = df.copy()` followed by the four
criterion steps in source order (country, customs code, item, year). -/
def filtered_df (df : DataFrame) (c : FilterCriteria) : Except String DataFrame := do
  let d1 ← applyCrit df countryCol c.country
  let d2 ← applyCrit d1 hsCol c.hsCode
  let d3 ← applyCrit d2 itemCol c.item
  applyCrit d3 yearCol c.year

/-! ### The Aggregation Stage -/

/-- Stable insertion of `x` into `l`: `x` is placed before the first element
`y` with `le x y`; on ties (`le x y` false for equal keys) `x` stays after
`y`, matching pandas `nlargest(keep='first')`. -/
def insertLe {α : Type} (le : α → α → Bool) (x : α) : List α → List α
  | [] => [x]
  | y :: ys => if le x y then x :: y :: ys else y :: insertLe le x ys

/-- Stable insertion sort; `le x y = true` means `x` must precede `y`. -/
def isort {α : Type} (le : α → α → Bool) : List α → List α
  | [] => []
  | x :: xs => insertLe le x (isort le xs)

/-- Order used by pandas when sorting group keys (`groupby(..., sort=True)`):
within one type, numbers by value and strings lexicographically.  (pandas
raises on order-incomparable mixed keys; the cross-type ranking here is a
total stand-in — no claim depends on group order.) -/
def cellLE (a b : Cell) : Bool :=
  match a, b with
  | .null, _ => true
  | .num _, .null => false
  | .num q, .num q' => decide (q ≤ q')
  | .num _, .str _ => true
  | .str _, .null => false
  | .str _, .num _ => false
  | .str s, .str s' => decide (s = s') || decide (s < s')

/-- The distinct group keys of `df.groupby(g)`: rows whose key cell is NaN
are dropped (`dropna=True`, the pandas default), duplicates removed, keys
sorted. -/
def groupKeys (df : DataFrame) (gi : Nat) : List Cell :=
  isort cellLE ((df.rows.map (fun r => r.getD gi .null)).filter (fun c => !c.isNull)).dedup

/-- Sum of a list of cells as pandas `sum()` over one group's metric column:
defined on numeric cells, an error (`TypeError` territory) as soon as a
non-numeric cell participates. -/
def sumQ : List Cell → Except String ℚ
  | [] => .ok 0
  | .num q :: rest => (sumQ rest).map (fun s => q + s)
  | _ :: _ => .error "TypeError"

/-- Rows of one group: those whose key cell equals `k`. -/
def groupRows (df : DataFrame) (gi : Nat) (k : Cell) : List (List Cell) :=
  df.rows.filter (fun r => decide (r.getD gi .null = k))

/-- `df.groupby(g)[v].sum()` as an association list: one `(key, sum)` pair
per group.  `KeyError` when either column is absent. -/
def groupSumCol (df : DataFrame) (g v : String) : Except String (List (Cell × ℚ)) :=
  match idxOf? g df.columns, idxOf? v df.columns with
  | some gi, some vi =>
    (groupKeys df gi).mapM (fun k =>
      (sumQ ((groupRows df gi k).map (fun r => r.getD vi .null))).map (fun q => (k, q)))
  | _, _ => .error "KeyError"

/-- `df.groupby(g)[['นำเข้า', 'ส่งออก']].sum()`: per group, the import and
export sums.  `KeyError` when any of the three columns is absent. -/
def groupSum2 (df : DataFrame) (g : String) : Except String (List (Cell × ℚ × ℚ)) :=
  match idxOf? g df.columns, idxOf? impCol df.columns, idxOf? expCol df.columns with
  | some gi, some ii, some ei =>
    (groupKeys df gi).mapM (fun k =>
      (sumQ ((groupRows df gi k).map (fun r => r.getD ii .null))).bind (fun si =>
        (sumQ ((groupRows df gi k).map (fun r => r.getD ei .null))).map (fun se => (k, si, se))))
  | _, _, _ => .error "KeyError"

/-- `create_trade_chart`: grouped import/export sums fed into the grouped
bar chart (the figure itself is presentation; its data is the summary).
Note the source performs no column-presence check here. -/
def create_trade_chart (df : DataFrame) (g : String) : Except String (List (Cell × ℚ × ℚ)) :=
  groupSum2 df g

/-- `create_top_n_chart`: if the group column is absent, warn and return an
empty figure; otherwise group the metric, take the `n` largest sums in
descending order (`nlargest`, ties keeping the earlier key).  An absent
metric column surfaces as the `KeyError` from the grouped sum. -/
def create_top_n_chart (df : DataFrame) (colName valueCol : String) (n : Nat) :
    Except String (List Msg × List (Cell × ℚ)) :=
  match idxOf? colName df.columns with
  | none => .ok ([.warning ("Column not found: " ++ colName)], [])
  | some _ =>
    (groupSumCol df colName valueCol).map (fun s =>
      ([], (isort (fun a b => decide (b.2 < a.2)) s).take n))

/-- One output row of the balance chart: group key, import sum, export sum,
and the signed balance `ส่งออก − นำเข้า`. -/
structure BalanceRow where
  key : Cell
  imp : ℚ
  expo : ℚ
  bal : ℚ
deriving DecidableEq, Repr

/-- `create_balance_chart`: if the group column is absent, warn and return
an empty figure; otherwise compute grouped import/export sums, derive the
signed balance, and keep the `n` rows of largest absolute balance in
descending `|balance|` order (`abs().nlargest(n)` then `.loc`). -/
def create_balance_chart (df : DataFrame) (g : String) (n : Nat) :
    Except String (List Msg × List BalanceRow) :=
  match idxOf? g df.columns with
  | none => .ok ([.warning ("Column not found: " ++ g)], [])
  | some _ =>
    (groupSum2 df g).map (fun s =>
      let summary := s.map (fun e => BalanceRow.mk e.1 e.2.1 e.2.2 (e.2.2 - e.2.1))
      ([], (isort (fun a b => decide (|b.bal| < |a.bal|)) summary).take n))

/-! ### Reference (spec-side) quantities used in theorem statements -/

/-- All cells of one column (in row order); `[]` when the column is absent. -/
def colCellsD (df : DataFrame) (c : String) : List Cell :=
  match idxOf? c df.columns with
  | some j => df.rows.map (fun r => r.getD j .null)
  | none => []

/-- Every cell of column `v` is numeric (and the column exists) — the Data
Loader guarantees this for the metric columns it coerced. -/
def colAllNum (df : DataFrame) (v : String) : Bool :=
  match idxOf? v df.columns with
  | some vi => df.rows.all (fun r => (r.getD vi .null).isNum)
  | none => false

/-- No cell of column `g` is the missing value (and the column exists) —
true of every table the Data Loader produces, whose cells come from sheet
text. -/
def colNoNull (df : DataFrame) (g : String) : Bool :=
  match idxOf? g df.columns with
  | some gi => df.rows.all (fun r => !(r.getD gi .null).isNull)
  | none => false

/-- The distinct values of the group column (spec side of C5). -/
def distinctGroupValues (df : DataFrame) (g : String) : List Cell :=
  (colCellsD df g).dedup

/-- Spec-side grouped sum: the sum of metric `v` over the rows whose group
cell equals `k`. -/
def specSum (df : DataFrame) (g v : String) (k : Cell) : ℚ :=
  match idxOf? g df.columns, idxOf? v df.columns with
  | some gi, some vi => ((groupRows df gi k).map (fun r => cellNumD (r.getD vi .null))).sum
  | _, _ => 0

/-- Spec-side total of a metric over the whole table. -/
def totalMetric (df : DataFrame) (v : String) : ℚ :=
  ((colCellsD df v).map cellNumD).sum

/-- The Filter Stage's per-criterion predicate: an empty input imposes no
constraint; otherwise the record's target cell, rendered as text, must be
found by a case-insensitive `re.search` of the trimmed pattern (the
absent-column and invalid-pattern arms are dead under `activeOk`). -/
def critBool (cols : List String) (pat col : String) (r : List Cell) : Bool :=
  pat == "" ||
    (match idxOf? col cols, reCompile (pyStrip pat) with
     | some j, some re0 => containsRe re0 (cellToStr (r.getD j .null))
     | _, _ => false)

/-- A record satisfies every non-empty criterion (logical AND of the four
predicates, in source order). -/
def rowMatches (cols : List String) (c : FilterCriteria) (r : List Cell) : Bool :=
  critBool cols c.country countryCol r && critBool cols c.hsCode hsCol r &&
    critBool cols c.item itemCol r && critBool cols c.year yearCol r

/-- Every non-empty criterion's target column is present in the schema and
its trimmed pattern compiles as a regex — true of every loader table (the
four filter columns are part of the TradeRecord schema) under well-formed
patterns. -/
def activeOk (df : DataFrame) (c : FilterCriteria) : Bool :=
  (c.country == "" ||
      ((idxOf? countryCol df.columns).isSome && (reCompile (pyStrip c.country)).isSome)) &&
    (c.hsCode == "" ||
      ((idxOf? hsCol df.columns).isSome && (reCompile (pyStrip c.hsCode)).isSome)) &&
    (c.item == "" ||
      ((idxOf? itemCol df.columns).isSome && (reCompile (pyStrip c.item)).isSome)) &&
    (c.year == "" ||
      ((idxOf? yearCol df.columns).isSome && (reCompile (pyStrip c.year)).isSome))

/-! ### Lemmas about the sorting, summing and grouping building blocks -/

theorem perm_insertLe {α : Type} (le : α → α → Bool) (x : α) :
    ∀ l : List α, (insertLe le x l).Perm (x :: l)
  | [] => List.Perm.refl _
  | y :: ys => by
    unfold insertLe
    cases hxy : le x y
    · simpa [hxy] using ((perm_insertLe le x ys).cons y).trans (List.Perm.swap x y ys)
    · simp [hxy]

theorem perm_isort {α : Type} (le : α → α → Bool) : ∀ l : List α, (isort le l).Perm l
  | [] => List.Perm.refl _
  | x :: xs => (perm_insertLe le x (isort le xs)).trans ((perm_isort le xs).cons x)

theorem mem_insertLe {α : Type} {le : α → α → Bool} {x z : α} {l : List α} :
    z ∈ insertLe le x l ↔ z = x ∨ z ∈ l := by
  rw [(perm_insertLe le x l).mem_iff, List.mem_cons]

theorem pairwise_insertLe {α : Type} {R : α → α → Prop} {le : α → α → Bool}
    (h1 : ∀ a b, le a b = true → R a b) (h2 : ∀ a b, le a b = false → R b a)
    (ht : ∀ a b c, R a b → R b c → R a c) (x : α) :
    ∀ l : List α, l.Pairwise R → (insertLe le x l).Pairwise R
  | [], _ => by simp [insertLe]
  | y :: ys, hp => by
    rw [List.pairwise_cons] at hp
    unfold insertLe
    cases hxy : le x y
    · simp only [Bool.false_eq_true, if_false]
      rw [List.pairwise_cons]
      refine ⟨fun z hz => ?_, pairwise_insertLe h1 h2 ht x ys hp.2⟩
      rcases mem_insertLe.mp hz with heq | hz
      · rw [heq]; exact h2 x y hxy
      · exact hp.1 z hz
    · simp only [if_true]
      rw [List.pairwise_cons]
      refine ⟨fun z hz => ?_, List.pairwise_cons.mpr hp⟩
      rcases List.mem_cons.mp hz with heq | hz
      · rw [heq]; exact h1 x y hxy
      · exact ht x y z (h1 x y hxy) (hp.1 z hz)

theorem pairwise_isort {α : Type} {R : α → α → Prop} {le : α → α → Bool}
    (h1 : ∀ a b, le a b = true → R a b) (h2 : ∀ a b, le a b = false → R b a)
    (ht : ∀ a b c, R a b → R b c → R a c) :
    ∀ l : List α, (isort le l).Pairwise R
  | [] => List.Pairwise.nil
  | x :: xs => pairwise_insertLe h1 h2 ht x (isort le xs) (pairwise_isort h1 h2 ht xs)

theorem sumQ_ok : ∀ l : List Cell, (∀ c ∈ l, c.isNum = true) → sumQ l = .ok ((l.map cellNumD).sum)
  | [], _ => rfl
  | .num q :: l, h => by
    have ih := sumQ_ok l (fun c hc => h c (List.mem_cons_of_mem _ hc))
    simp [sumQ, ih, cellNumD, Except.map]
  | .str s :: l, h => by
    have hc := h (.str s) (List.mem_cons_self _ _)
    simp [Cell.isNum] at hc
  | .null :: l, h => by
    have hc := h .null (List.mem_cons_self _ _)
    simp [Cell.isNum] at hc

theorem mapM_ok {α β : Type} {f : α → Except String β} {g : α → β} :
    ∀ l : List α, (∀ a ∈ l, f a = .ok (g a)) → l.mapM f = .ok (l.map g)
  | [], _ => rfl
  | a :: l, h => by
    rw [List.mapM_cons, h a (List.mem_cons_self a l),
      mapM_ok l (fun b hb => h b (List.mem_cons_of_mem _ hb))]
    rfl

theorem sum_filter_split {ρ : Type} (p : ρ → Bool) (f : ρ → ℚ) :
    ∀ l : List ρ,
      ((l.filter p).map f).sum + ((l.filter (fun r => !p r)).map f).sum = (l.map f).sum
  | [] => by simp
  | r :: l => by
    cases hr : p r <;>
      simp [List.filter_cons, hr, ← sum_filter_split p f l] <;> ring

theorem sum_partition {ρ κ : Type} [DecidableEq κ] (key : ρ → κ) (f : ρ → ℚ) :
    ∀ (ks : List κ) (rows : List ρ), ks.Nodup → (∀ r ∈ rows, key r ∈ ks) →
      (ks.map (fun k => ((rows.filter (fun r => decide (key r = k))).map f).sum)).sum
        = (rows.map f).sum
  | [], rows, _, hcov => by
    match rows, hcov with
    | [], _ => simp
    | r :: rows, hcov => exact absurd (hcov r (List.mem_cons_self r rows)) (List.not_mem_nil _)
  | k :: ks, rows, hnd, hcov => by
    rw [List.nodup_cons] at hnd
    have hsplit := sum_filter_split (fun r => decide (key r = k)) f rows
    have hrec := sum_partition key f ks (rows.filter (fun r => !decide (key r = k))) hnd.2
      (fun r hr => by
        rcases List.mem_filter.mp hr with ⟨hmem, hne⟩
        rcases List.mem_cons.mp (hcov r hmem) with heq | h
        · rw [heq] at hne; simp at hne
        · exact h)
    have hswap : ∀ j ∈ ks,
        ((rows.filter (fun r => !decide (key r = k))).filter (fun r => decide (key r = j)))
          = rows.filter (fun r => decide (key r = j)) := by
      intro j hj
      rw [List.filter_filter]
      refine List.filter_congr (fun r _ => ?_)
      by_cases hrj : key r = j
      · have hjk : ¬ j = k := fun h => hnd.1 (h ▸ hj)
        simp [hrj, hjk]
      · simp [hrj]
    rw [List.map_cons, List.sum_cons, ← hsplit]
    congr 1
    rw [← hrec]
    refine congrArg List.sum (List.map_congr_left (fun j hj => ?_))
    rw [hswap j hj]

theorem colAllNum_spec {df : DataFrame} {v : String} {vi : Nat}
    (hvi : idxOf? v df.columns = some vi) (h : colAllNum df v = true) :
    ∀ r ∈ df.rows, (r.getD vi .null).isNum = true := by
  unfold colAllNum at h
  rw [hvi] at h
  exact fun r hr => List.all_eq_true.mp h r hr

theorem colNoNull_spec {df : DataFrame} {g : String} {gi : Nat}
    (hgi : idxOf? g df.columns = some gi) (h : colNoNull df g = true) :
    ∀ r ∈ df.rows, (r.getD gi .null).isNull = false := by
  unfold colNoNull at h
  rw [hgi] at h
  exact fun r hr => by simpa using List.all_eq_true.mp h r hr

theorem groupKeys_nodup (df : DataFrame) (gi : Nat) : (groupKeys df gi).Nodup :=
  (perm_isort cellLE _).symm.nodup (List.nodup_dedup _)

theorem mem_groupKeys {df : DataFrame} {gi : Nat} {k : Cell} :
    k ∈ groupKeys df gi ↔
      k ∈ df.rows.map (fun r => r.getD gi .null) ∧ (!k.isNull) = true := by
  unfold groupKeys
  rw [(perm_isort _ _).mem_iff, List.mem_dedup, List.mem_filter]

theorem groupSum_key_ok {df : DataFrame} {vi : Nat} (gi : Nat)
    (hnum : ∀ r ∈ df.rows, (r.getD vi .null).isNum = true) (k : Cell) :
    sumQ ((groupRows df gi k).map (fun r => r.getD vi .null))
      = .ok (((groupRows df gi k).map (fun r => cellNumD (r.getD vi .null))).sum) := by
  rw [sumQ_ok _ (fun c hc => ?_), List.map_map]
  · rfl
  · rcases List.mem_map.mp hc with ⟨r, hr, rfl⟩
    exact hnum r (List.mem_filter.mp hr).1

theorem specSum_eq {df : DataFrame} {g v : String} {gi vi : Nat}
    (hg : idxOf? g df.columns = some gi) (hv : idxOf? v df.columns = some vi) (k : Cell) :
    specSum df g v k = ((groupRows df gi k).map (fun r => cellNumD (r.getD vi .null))).sum := by
  unfold specSum
  rw [hg, hv]

theorem groupSumCol_ok {df : DataFrame} {g v : String} {gi vi : Nat}
    (hg : idxOf? g df.columns = some gi) (hv : idxOf? v df.columns = some vi)
    (hnum : ∀ r ∈ df.rows, (r.getD vi .null).isNum = true) :
    groupSumCol df g v = .ok ((groupKeys df gi).map (fun k => (k, specSum df g v k))) := by
  unfold groupSumCol
  rw [hg, hv]
  refine mapM_ok _ (fun k _ => ?_)
  rw [groupSum_key_ok gi hnum k, specSum_eq hg hv]
  rfl

theorem groupSum2_ok {df : DataFrame} {g : String} {gi ii ei : Nat}
    (hg : idxOf? g df.columns = some gi)
    (hi : idxOf? impCol df.columns = some ii) (he : idxOf? expCol df.columns = some ei)
    (hni : ∀ r ∈ df.rows, (r.getD ii .null).isNum = true)
    (hne : ∀ r ∈ df.rows, (r.getD ei .null).isNum = true) :
    groupSum2 df g
      = .ok ((groupKeys df gi).map
          (fun k => (k, specSum df g impCol k, specSum df g expCol k))) := by
  unfold groupSum2
  rw [hg, hi, he]
  refine mapM_ok _ (fun k _ => ?_)
  rw [groupSum_key_ok gi hni k, groupSum_key_ok gi hne k,
    specSum_eq hg hi, specSum_eq hg he]
  rfl

/-! ### Lemmas about the Filter Stage -/

theorem applyCrit_ok (cols : List String) (rows : List (List Cell)) {col pat : String}
    (h : pat = "" ∨
      ((idxOf? col cols).isSome = true ∧ (reCompile (pyStrip pat)).isSome = true)) :
    applyCrit ⟨cols, rows⟩ col pat = .ok ⟨cols, rows.filter (critBool cols pat col)⟩ := by
  by_cases hpat : pat = ""
  · subst hpat
    have hf : rows.filter (critBool cols "" col) = rows :=
      List.filter_eq_self.mpr (fun r _ => by simp [critBool])
    rw [hf]
    rfl
  · rcases h with h | ⟨hc, hre⟩
    · exact absurd h hpat
    · rcases Option.isSome_iff_exists.mp hc with ⟨j, hj⟩
      rcases Option.isSome_iff_exists.mp hre with ⟨re0, hre0⟩
      unfold applyCrit
      rw [if_neg hpat, hj, hre0]
      exact congrArg (fun rs => Except.ok (⟨cols, rs⟩ : DataFrame))
        (List.filter_congr (fun r _ => by simp [critBool, hj, hre0, hpat]))

theorem activeOk_parts {df : DataFrame} {c : FilterCriteria} (h : activeOk df c = true) :
    (c.country = "" ∨ ((idxOf? countryCol df.columns).isSome = true ∧
        (reCompile (pyStrip c.country)).isSome = true)) ∧
      (c.hsCode = "" ∨ ((idxOf? hsCol df.columns).isSome = true ∧
        (reCompile (pyStrip c.hsCode)).isSome = true)) ∧
      (c.item = "" ∨ ((idxOf? itemCol df.columns).isSome = true ∧
        (reCompile (pyStrip c.item)).isSome = true)) ∧
      (c.year = "" ∨ ((idxOf? yearCol df.columns).isSome = true ∧
        (reCompile (pyStrip c.year)).isSome = true)) := by
  unfold activeOk at h
  simp only [Bool.and_eq_true, Bool.or_eq_true, beq_iff_eq] at h
  exact ⟨h.1.1.1, h.1.1.2, h.1.2, h.2⟩

theorem filtered_df_ok {df : DataFrame} {c : FilterCriteria} (h : activeOk df c = true) :
    filtered_df df c = .ok ⟨df.columns, df.rows.filter (rowMatches df.columns c)⟩ := by
  obtain ⟨cols, rows⟩ := df
  obtain ⟨h1, h2, h3, h4⟩ := activeOk_parts h
  dsimp only at h1 h2 h3 h4 ⊢
  show (applyCrit ⟨cols, rows⟩ countryCol c.country).bind _ = _
  rw [applyCrit_ok cols rows h1]
  show (applyCrit ⟨cols, rows.filter (critBool cols c.country countryCol)⟩ hsCol c.hsCode).bind _ = _
  rw [applyCrit_ok cols (rows.filter (critBool cols c.country countryCol)) h2]
  show (applyCrit ⟨cols, (rows.filter (critBool cols c.country countryCol)).filter
      (critBool cols c.hsCode hsCol)⟩ itemCol c.item).bind _ = _
  rw [applyCrit_ok cols ((rows.filter (critBool cols c.country countryCol)).filter
      (critBool cols c.hsCode hsCol)) h3]
  show applyCrit ⟨cols, ((rows.filter (critBool cols c.country countryCol)).filter
      (critBool cols c.hsCode hsCol)).filter (critBool cols c.item itemCol)⟩ yearCol c.year = _
  rw [applyCrit_ok cols (((rows.filter (critBool cols c.country countryCol)).filter
      (critBool cols c.hsCode hsCol)).filter (critBool cols c.item itemCol)) h4]
  rw [List.filter_filter, List.filter_filter, List.filter_filter]
  refine congrArg (fun rs => Except.ok (⟨cols, rs⟩ : DataFrame))
    (List.filter_congr (fun r _ => ?_))
  unfold rowMatches
  cases critBool cols c.country countryCol r <;>
    cases critBool cols c.hsCode hsCol r <;>
    cases critBool cols c.item itemCol r <;>
    cases critBool cols c.year yearCol r <;> rfl

/-! ### Lemmas about column indices, cell update, and the loader -/

theorem idxOf?_getD {c : String} : ∀ {cols : List String} {j : Nat},
    idxOf? c cols = some j → cols.getD j "" = c
  | [], j, h => by exact Option.noConfusion h
  | x :: xs, j, h => by
    rw [idxOf?] at h
    by_cases hx : x = c
    · rw [if_pos hx] at h
      cases h
      simpa using hx
    · rw [if_neg hx] at h
      cases hj : idxOf? c xs with
      | none => rw [hj] at h; simp at h
      | some j' =>
        rw [hj, Option.map_some'] at h
        cases h
        rw [List.getD_cons_succ]
        exact idxOf?_getD hj

theorem idxOf?_ne_of_ne {a b : String} (hab : a ≠ b) {cols : List String} {i j : Nat}
    (ha : idxOf? a cols = some i) (hb : idxOf? b cols = some j) : i ≠ j := by
  intro hij
  exact hab (by rw [← idxOf?_getD ha, hij, idxOf?_getD hb])

theorem getD_set_self : ∀ (l : List Cell) (j : Nat) (v d : Cell),
    j < l.length → (l.set j v).getD j d = v
  | [], j, v, d, h => by simp at h
  | x :: l, 0, v, d, _ => rfl
  | x :: l, j + 1, v, d, h =>
    getD_set_self l j v d (by simpa using h)

theorem getD_set_other : ∀ (l : List Cell) {i j : Nat} (v d : Cell),
    i ≠ j → (l.set i v).getD j d = l.getD j d
  | [], _, _, _, _, _ => rfl
  | x :: l, 0, 0, v, d, h => absurd rfl h
  | x :: l, 0, j + 1, v, d, _ => rfl
  | x :: l, i + 1, 0, v, d, _ => rfl
  | x :: l, i + 1, j + 1, v, d, h => by
    rw [List.set_cons_succ, List.getD_cons_succ, List.getD_cons_succ]
    exact getD_set_other l v d (fun e => h (by rw [e]))

theorem getD_map_rows {f : List Cell → List Cell} (hf : f [] = []) :
    ∀ (l : List (List Cell)) (i : Nat), (l.map f).getD i [] = f (l.getD i [])
  | [], i => by simp [hf]
  | x :: l, 0 => rfl
  | x :: l, i + 1 => getD_map_rows hf l i

theorem getD_lt_of_ne_null {l : List Cell} {j : Nat} (h : l.getD j .null ≠ .null) :
    j < l.length := by
  by_contra hge
  rw [List.getD_eq_getElem?_getD, List.getElem?_eq_none (by omega)] at h
  exact h rfl

theorem coerceOne_columns (df : DataFrame) (c : String) :
    (coerceOne df c).columns = df.columns := by
  unfold coerceOne
  cases hc : idxOf? c df.columns <;> rfl

theorem coerceOne_row_length (df : DataFrame) (c : String) (i : Nat) :
    ((coerceOne df c).rows.getD i []).length = (df.rows.getD i []).length := by
  unfold coerceOne
  cases hc : idxOf? c df.columns with
  | none => rfl
  | some j' =>
    dsimp only
    rw [getD_map_rows rfl]
    exact List.length_set _ _ _

theorem coerceOne_cell_self {df : DataFrame} {col : String} {j : Nat}
    (hj : idxOf? col df.columns = some j) {i : Nat}
    (hlt : j < (df.rows.getD i []).length) :
    ((coerceOne df col).rows.getD i []).getD j .null
      = coerceCell ((df.rows.getD i []).getD j .null) := by
  unfold coerceOne
  rw [hj]
  dsimp only
  rw [getD_map_rows rfl df.rows i]
  exact getD_set_self _ j _ _ hlt

theorem coerceOne_cell_other {df : DataFrame} {c col : String} {j : Nat}
    (hne : c ≠ col) (hj : idxOf? col df.columns = some j) (i : Nat) :
    ((coerceOne df c).rows.getD i []).getD j .null = (df.rows.getD i []).getD j .null := by
  unfold coerceOne
  cases hc : idxOf? c df.columns with
  | none => rfl
  | some j' =>
    dsimp only
    rw [getD_map_rows rfl df.rows i]
    exact getD_set_other _ _ _ (idxOf?_ne_of_ne hne hc hj)

theorem load_fails_empty {env : Env} (h : loadFails env = true) :
    (get_data_from_sheet env).1 = emptyDF
      ∧ ((get_data_from_sheet env).2.any Msg.isErr) = true := by
  obtain ⟨sp, sc, fetch⟩ := env
  cases fetch with
  | error e => cases e <;> cases sp <;> cases sc <;> exact ⟨rfl, rfl⟩
  | ok data =>
    cases data with
    | nil => cases sp <;> cases sc <;> exact ⟨rfl, rfl⟩
    | cons hd tl =>
      cases sp <;> cases sc <;> first
        | exact ⟨rfl, rfl⟩
        | simp [loadFails] at h

theorem coerceDf_cell (df : DataFrame) {col : String} {j : Nat}
    (hcol : col ∈ numeric_cols) (hj : idxOf? col df.columns = some j) (i : Nat)
    (hlt : j < (df.rows.getD i []).length) :
    ((coerceDf df).rows.getD i []).getD j .null
      = coerceCell ((df.rows.getD i []).getD j .null) := by
  have hc1 : idxOf? col (coerceOne df impCol).columns = some j := by
    rw [coerceOne_columns]; exact hj
  have hc2 : idxOf? col (coerceOne (coerceOne df impCol) expCol).columns = some j := by
    rw [coerceOne_columns, coerceOne_columns]; exact hj
  have hl1 : j < ((coerceOne df impCol).rows.getD i []).length := by
    rw [coerceOne_row_length]; exact hlt
  have hl2 : j < ((coerceOne (coerceOne df impCol) expCol).rows.getD i []).length := by
    rw [coerceOne_row_length, coerceOne_row_length]; exact hlt
  show ((coerceOne (coerceOne (coerceOne df impCol) expCol) yearCol).rows.getD i []).getD j .null = _
  simp only [numeric_cols, List.mem_cons, List.not_mem_nil, or_false] at hcol
  rcases hcol with hcol | hcol | hcol
  · -- col is the import column: coerced by the first pass, untouched afterwards
    subst hcol
    rw [coerceOne_cell_other (by decide) hc2 i, coerceOne_cell_other (by decide) hc1 i,
      coerceOne_cell_self hj hlt]
  · -- col is the export column
    subst hcol
    rw [coerceOne_cell_other (by decide) hc2 i, coerceOne_cell_self hc1 hl1,
      coerceOne_cell_other (by decide) hj i]
  · -- col is the year column
    subst hcol
    rw [coerceOne_cell_self hc2 hl2, coerceOne_cell_other (by decide) hc1 i,
      coerceOne_cell_other (by decide) hj i]

/-! ### The claims -/

/-- C1: every failure reaching the Remote Table Source during a load
(sheet not found, credential file missing, transport/auth or any other
error, including secret-based client creation failing and empty sheet data)
is caught inside `get_data_from_sheet`, which emits an `st.error`
diagnostic and returns the empty frame (zero rows, no columns); the
function is total in the model (nothing is raised past its boundary), and
the caller's `if not df.empty:` branch shows the "no data" notice. -/
theorem C1_loader_failure_policy (env : Env) (h : loadFails env = true) :
    (get_data_from_sheet env).1 = emptyDF ∧
      (get_data_from_sheet env).1.rows = [] ∧
      (get_data_from_sheet env).1.columns = [] ∧
      ((get_data_from_sheet env).2.any Msg.isErr) = true ∧
      renderMain env = false := by
  obtain ⟨he, hm⟩ := load_fails_empty h
  refine ⟨he, by rw [he]; rfl, by rw [he]; rfl, hm, ?_⟩
  unfold renderMain
  rw [he]
  rfl

/-- Witness for C1 at a concrete failing environment
(`SpreadsheetNotFound` from the fetch). -/
theorem C1_loader_failure_policy_witness :
    loadFails ⟨false, true, .error .spreadsheetNotFound⟩ = true ∧
      (get_data_from_sheet ⟨false, true, .error .spreadsheetNotFound⟩).1 = emptyDF ∧
      renderMain ⟨false, true, .error .spreadsheetNotFound⟩ = false :=
  ⟨rfl, (C1_loader_failure_policy ⟨false, true, .error .spreadsheetNotFound⟩ rfl).1,
    (C1_loader_failure_policy ⟨false, true, .error .spreadsheetNotFound⟩ rfl).2.2.2.2⟩

/-- C10: a failed load is memoized exactly like a successful one.  The
first call stores the empty frame the failure produced; any call within
the 300-second TTL returns that cached empty frame, does not contact the
Remote Table Source (the fetched flag is `false`, the cache state is
unchanged) — even when the second call's environment would now succeed. -/
theorem C10_failed_load_is_cached (env1 env2 : Env) (t0 now : Nat)
    (h1 : loadFails env1 = true) (h2 : now < t0 + 300) :
    (cachedGet ⟨none⟩ t0 env1).1 = emptyDF ∧
      (cachedGet ⟨none⟩ t0 env1).2.2 = true ∧
      (cachedGet (cachedGet ⟨none⟩ t0 env1).2.1 now env2).1 = emptyDF ∧
      (cachedGet (cachedGet ⟨none⟩ t0 env1).2.1 now env2).2.2 = false ∧
      (cachedGet (cachedGet ⟨none⟩ t0 env1).2.1 now env2).2.1
        = (cachedGet ⟨none⟩ t0 env1).2.1 := by
  have he := (load_fails_empty h1).1
  have e2 : cachedGet ⟨some ((get_data_from_sheet env1).1, t0)⟩ now env2
      = ((get_data_from_sheet env1).1,
          ⟨some ((get_data_from_sheet env1).1, t0)⟩, false) := by
    show (if now < t0 + 300 then
        ((get_data_from_sheet env1).1,
          (⟨some ((get_data_from_sheet env1).1, t0)⟩ : Cache), false)
      else
        let v' := (get_data_from_sheet env2).1
        (v', ⟨some (v', now)⟩, true)) = _
    rw [if_pos h2]
  refine ⟨he, rfl, ?_, ?_, ?_⟩
  · show (cachedGet ⟨some ((get_data_from_sheet env1).1, t0)⟩ now env2).1 = emptyDF
    rw [e2]; exact he
  · show (cachedGet ⟨some ((get_data_from_sheet env1).1, t0)⟩ now env2).2.2 = false
    rw [e2]
  · show (cachedGet ⟨some ((get_data_from_sheet env1).1, t0)⟩ now env2).2.1
        = (⟨some ((get_data_from_sheet env1).1, t0)⟩ : Cache)
    rw [e2]

/-- Witness for C10: a timed-out fetch at time 0 caches the empty frame; a
call at time 299 with a now-working environment still gets the cached empty
frame without fetching. -/
theorem C10_failed_load_is_cached_witness :
    loadFails ⟨false, true, .error (.other "timeout")⟩ = true ∧ (299 : Nat) < 0 + 300 ∧
      (cachedGet (cachedGet ⟨none⟩ 0 ⟨false, true, .error (.other "timeout")⟩).2.1 299
        ⟨false, true, .ok [["ชื่อประเทศ"], ["A"]]⟩).1 = emptyDF ∧
      (cachedGet (cachedGet ⟨none⟩ 0 ⟨false, true, .error (.other "timeout")⟩).2.1 299
        ⟨false, true, .ok [["ชื่อประเทศ"], ["A"]]⟩).2.2 = false :=
  ⟨rfl, by decide,
    (C10_failed_load_is_cached ⟨false, true, .error (.other "timeout")⟩
      ⟨false, true, .ok [["ชื่อประเทศ"], ["A"]]⟩ 0 299 rfl (by decide)).2.2.1,
    (C10_failed_load_is_cached ⟨false, true, .error (.other "timeout")⟩
      ⟨false, true, .ok [["ชื่อประเทศ"], ["A"]]⟩ 0 299 rfl (by decide)).2.2.2.1⟩

/-- C8: with no criteria supplied (all four inputs empty), the filter block
returns the table unchanged — same rows, same order.  (The aliasing half of
the claim — `df.copy()` making the result independent of the cached source
frame — is a memory-identity property with no counterpart in this pure
model, where values cannot be mutated; the equality below is its
value-level content.) -/
theorem C8_empty_filter_identity (df : DataFrame) :
    filtered_df df ⟨"", "", "", ""⟩ = .ok df := rfl

/-- C6: numeric coercion in the loader.  For a numeric-designated column
present in the schema, each text cell is replaced by its parsed numeric
value, and by exactly `0` when it fails to parse — never an error, never a
missing value (the result is always a `Cell.num`). -/
theorem C6_numeric_coercion (df : DataFrame) (col : String) (j i : Nat) (s : String)
    (hcol : col ∈ numeric_cols) (hj : idxOf? col df.columns = some j)
    (hcell : (df.rows.getD i []).getD j .null = .str s) :
    ((coerceDf df).rows.getD i []).getD j .null = .num ((toNumeric? s).getD 0) ∧
      (toNumeric? s = none → ((coerceDf df).rows.getD i []).getD j .null = .num 0) ∧
      (∀ q : ℚ, toNumeric? s = some q →
        ((coerceDf df).rows.getD i []).getD j .null = .num q) := by
  have hlt : j < (df.rows.getD i []).length :=
    getD_lt_of_ne_null (by rw [hcell]; exact fun h => Cell.noConfusion h)
  have hmain : ((coerceDf df).rows.getD i []).getD j .null
      = .num ((toNumeric? s).getD 0) := by
    rw [coerceDf_cell df hcol hj i hlt, hcell]
    rfl
  refine ⟨hmain, fun hn => ?_, fun q hq => ?_⟩
  · rw [hmain, hn]; rfl
  · rw [hmain, hq]; rfl

/-- Witness for C6: in a concrete frame, the import cell `" 12.5"` is
coerced to `25/2` and the unparseable cell `"abc"` to `0`. -/
theorem C6_numeric_coercion_witness :
    toNumeric? " 12.5" = some (25 / 2 : ℚ) ∧ toNumeric? "abc" = none ∧
      ((coerceDf ⟨["ชื่อประเทศ", "นำเข้า"],
          [[Cell.str "A", Cell.str " 12.5"], [Cell.str "B", Cell.str "abc"]]⟩).rows.getD 0 []).getD 1 .null
        = .num (25 / 2 : ℚ) ∧
      ((coerceDf ⟨["ชื่อประเทศ", "นำเข้า"],
          [[Cell.str "A", Cell.str " 12.5"], [Cell.str "B", Cell.str "abc"]]⟩).rows.getD 1 []).getD 1 .null
        = .num 0 :=
  ⟨by with_unfolding_all rfl, rfl,
    (C6_numeric_coercion ⟨["ชื่อประเทศ", "นำเข้า"],
        [[Cell.str "A", Cell.str " 12.5"], [Cell.str "B", Cell.str "abc"]]⟩ "นำเข้า" 1 0 " 12.5"
        (by decide) rfl rfl).2.2 (25 / 2 : ℚ) (by with_unfolding_all rfl),
    (C6_numeric_coercion ⟨["ชื่อประเทศ", "นำเข้า"],
        [[Cell.str "A", Cell.str " 12.5"], [Cell.str "B", Cell.str "abc"]]⟩ "นำเข้า" 1 1 "abc"
        (by decide) rfl rfl).2.1 rfl⟩

/-- C2 counterexample.  The claim — the Filter Stage never crashes, and a
record whose target column is absent or whose value is null is excluded
from the match — fails on the code in all three ways.  (1) With a
non-empty country criterion and a schema lacking the country column,
`df[col]` raises `KeyError`: the filter does not complete.  (2) A null
country value is rendered by `astype(str)` as the text `"nan"` before
`na=False` can act, so the record *matches* the criterion `"nan"` and is
kept, not excluded.  (3) Even with the column present, a regex-invalid
pattern such as `"("` raises `re.error` inside `str.contains`
(`regex=True` is the default): again the filter does not complete. -/
theorem C2_filter_safety_counterexample :
    filtered_df ⟨["รายการสินค้า"], [[Cell.str "rice"]]⟩ ⟨"x", "", "", ""⟩
        = .error ("KeyError: " ++ countryCol) ∧
      filtered_df ⟨[countryCol], [[Cell.null]]⟩ ⟨"nan", "", "", ""⟩
        = .ok ⟨[countryCol], [[Cell.null]]⟩ ∧
      filtered_df ⟨[countryCol], [[Cell.str "Japan"]]⟩ ⟨"(", "", "", ""⟩
        = .error "re.error" :=
  ⟨rfl, rfl, rfl⟩

/-- C2 (amended): the Filter Stage completes normally on every table whose
schema contains the target column of each non-empty criterion and whose
non-empty trimmed patterns compile as regular expressions; if a non-empty
criterion's target column is absent the filter raises `KeyError`, and a
regex-invalid pattern (e.g. `"("`) raises `re.error` even with the column
present, instead of completing.  A record whose target column value is
null is not excluded by default: the null is rendered as the text `"nan"`
and the record is matched against that rendering (so it matches, e.g.,
the pattern `"nan"`). -/
theorem C2_filter_safety_amended :
    (∀ (df : DataFrame) (c : FilterCriteria),
        activeOk df c = true → (filtered_df df c).isOk = true) ∧
      (∀ (df : DataFrame) (col pat : String) (j : Nat) (re0 : Re),
        idxOf? col df.columns = some j → pat ≠ "" →
        reCompile (pyStrip pat) = some re0 →
        applyCrit df col pat = .ok ⟨df.columns,
          df.rows.filter (fun r => containsRe re0 (cellToStr (r.getD j .null)))⟩) ∧
      cellToStr Cell.null = "nan" ∧
      applyCrit ⟨[countryCol], [[Cell.str "Japan"]]⟩ countryCol "(" = .error "re.error" := by
  refine ⟨fun df c h => ?_, fun df col pat j re0 hj hpat hre => ?_, rfl, rfl⟩
  · rw [filtered_df_ok h]; rfl
  · unfold applyCrit
    rw [if_neg hpat, hj, hre]

/-- Witness for C2 (amended) at concrete inputs: an active country
criterion on a frame with the country column completes, the pattern
`"nan"` compiles to its literal chain, and the null-cell matching step is
exactly the `re.search` of that chain on the rendered text `"nan"`. -/
theorem C2_filter_safety_amended_witness :
    activeOk ⟨[countryCol], [[Cell.str "Japan"]]⟩ ⟨"ja", "", "", ""⟩ = true ∧
      (filtered_df ⟨[countryCol], [[Cell.str "Japan"]]⟩ ⟨"ja", "", "", ""⟩).isOk = true ∧
      reCompile (pyStrip "nan")
        = some (.cat (.ch 'n') (.cat (.ch 'a') (.cat (.ch 'n') .eps))) ∧
      applyCrit ⟨[countryCol], [[Cell.null]]⟩ countryCol "nan"
        = .ok ⟨[countryCol], ([[Cell.null]] : List (List Cell)).filter
            (fun r => containsRe (.cat (.ch 'n') (.cat (.ch 'a') (.cat (.ch 'n') .eps)))
              (cellToStr (r.getD 0 .null)))⟩ :=
  ⟨rfl, C2_filter_safety_amended.1 ⟨[countryCol], [[Cell.str "Japan"]]⟩ ⟨"ja", "", "", ""⟩ rfl,
    rfl,
    C2_filter_safety_amended.2.1 ⟨[countryCol], [[Cell.null]]⟩ countryCol "nan" 0
      (.cat (.ch 'n') (.cat (.ch 'a') (.cat (.ch 'n') .eps))) rfl (by decide) rfl⟩

/-- C3 counterexample.  The claim — an absent group *or metric* column
makes each aggregation return an empty result plus a diagnostic — fails for
the metric column: both helpers guard only the group column, so with the
group column present and the metric column absent, `groupby(...)[metric]`
raises `KeyError` instead of returning an empty result. -/
theorem C3_schema_mismatch_counterexample :
    create_top_n_chart ⟨[countryCol], [[Cell.str "A"]]⟩ countryCol impCol 10
        = .error "KeyError" ∧
      create_balance_chart ⟨[countryCol], [[Cell.str "A"]]⟩ countryCol 10
        = .error "KeyError" :=
  ⟨rfl, rfl⟩

/-- C3 (amended): if the requested *group* column is absent from the
schema, `create_top_n_chart` and `create_balance_chart` each return an
empty result and surface an `st.warning` diagnostic instead of a fatal
error; an absent *metric* column (with the group column present) instead
raises `KeyError`. -/
theorem C3_schema_mismatch_amended (df : DataFrame) (g v : String) (n : Nat)
    (h : idxOf? g df.columns = none) :
    create_top_n_chart df g v n = .ok ([.warning ("Column not found: " ++ g)], []) ∧
      create_balance_chart df g n = .ok ([.warning ("Column not found: " ++ g)], []) := by
  unfold create_top_n_chart create_balance_chart
  rw [h]
  exact ⟨rfl, rfl⟩

/-- Witness for C3 (amended) at a concrete frame lacking the requested
group column. -/
theorem C3_schema_mismatch_amended_witness :
    idxOf? "region" (⟨[impCol, expCol], [[Cell.num 1, Cell.num 2]]⟩ : DataFrame).columns
        = none ∧
      create_top_n_chart ⟨[impCol, expCol], [[Cell.num 1, Cell.num 2]]⟩ "region" impCol 10
        = .ok ([.warning ("Column not found: " ++ "region")], []) ∧
      create_balance_chart ⟨[impCol, expCol], [[Cell.num 1, Cell.num 2]]⟩ "region" 10
        = .ok ([.warning ("Column not found: " ++ "region")], []) :=
  ⟨rfl,
    (C3_schema_mismatch_amended ⟨[impCol, expCol], [[Cell.num 1, Cell.num 2]]⟩
      "region" impCol 10 rfl).1,
    (C3_schema_mismatch_amended ⟨[impCol, expCol], [[Cell.num 1, Cell.num 2]]⟩
      "region" impCol 10 rfl).2⟩

/-- C7 counterexample.  The claim characterizes every criterion as a
case-insensitive *substring* test and asserts it for *every* table; both
parts fail on the code.  (1) `str.contains` defaults to `regex=True`: the
pattern `"."` keeps the record `"AB"` although `"."` is not a substring of
`"AB"` (the spec-side substring test `containsCI` is false there) — a
metacharacter pattern does regex matching, not substring matching.
(2) With a non-empty country criterion and a schema lacking the country
column, the filter raises `KeyError` instead of returning the kept
records. -/
theorem C7_filter_substring_counterexample :
    filtered_df ⟨[countryCol], [[Cell.str "AB"]]⟩ ⟨".", "", "", ""⟩
        = .ok ⟨[countryCol], [[Cell.str "AB"]]⟩ ∧
      containsCI "AB" "." = false ∧
      filtered_df ⟨[yearCol], [[Cell.str "2564"]]⟩ ⟨"x", "", "", ""⟩
        = .error ("KeyError: " ++ countryCol) :=
  ⟨rfl, rfl, rfl⟩

/-- C7 (amended): on every table whose schema contains the target column
of each non-empty criterion and whose non-empty trimmed patterns compile
as regular expressions (every loader table under well-formed patterns:
the four filter columns are part of the TradeRecord schema), the Filter
Stage keeps exactly the records satisfying every non-empty criterion — a
criterion matches a record iff a case-insensitive `re.search` of the
trimmed pattern succeeds on the record's target cell rendered as text;
for metacharacter-free patterns that search is the claim's substring
test, as the witness computes — and the survivors form a sublist of the
input rows (input order preserved).  Determinism is inherent: the model
is a function of `(table, criteria)`. -/
theorem C7_filter_regex_characterization (df : DataFrame) (c : FilterCriteria)
    (h : activeOk df c = true) :
    filtered_df df c = .ok ⟨df.columns, df.rows.filter (rowMatches df.columns c)⟩ ∧
      (df.rows.filter (rowMatches df.columns c)).Sublist df.rows :=
  ⟨filtered_df_ok h, List.filter_sublist df.rows⟩

/-- Witness for C7 (amended) at a concrete two-row frame with two active
metacharacter-free criteria (case-insensitive country pattern and year
pattern): the regex filter computes exactly the substring-matching row. -/
theorem C7_filter_regex_characterization_witness :
    activeOk ⟨[countryCol, yearCol],
        [[Cell.str "Japan", Cell.str "2564"], [Cell.str "Laos", Cell.str "2563"]]⟩
        ⟨"JA", "", "", "2564"⟩ = true ∧
      filtered_df ⟨[countryCol, yearCol],
          [[Cell.str "Japan", Cell.str "2564"], [Cell.str "Laos", Cell.str "2563"]]⟩
          ⟨"JA", "", "", "2564"⟩
        = .ok ⟨[countryCol, yearCol],
            ([[Cell.str "Japan", Cell.str "2564"], [Cell.str "Laos", Cell.str "2563"]]
              : List (List Cell)).filter
              (rowMatches [countryCol, yearCol] ⟨"JA", "", "", "2564"⟩)⟩ ∧
      ([[Cell.str "Japan", Cell.str "2564"], [Cell.str "Laos", Cell.str "2563"]]
          : List (List Cell)).filter
          (rowMatches [countryCol, yearCol] ⟨"JA", "", "", "2564"⟩)
        = [[Cell.str "Japan", Cell.str "2564"]] ∧
      containsCI "Japan" "JA" = true ∧ containsCI "Laos" "JA" = false :=
  ⟨rfl,
    (C7_filter_regex_characterization ⟨[countryCol, yearCol],
      [[Cell.str "Japan", Cell.str "2564"], [Cell.str "Laos", Cell.str "2563"]]⟩
      ⟨"JA", "", "", "2564"⟩ rfl).1,
    rfl, rfl, rfl⟩

/-- C5: `create_top_n_chart` on a table whose schema contains the group and
metric columns (a loader table: metric cells numeric, group cells
non-null) returns at most `n` entries, sorted by summed metric in
descending order; with `k < n` distinct group values it returns exactly
`k` entries (the length is `min n k`), and every entry carries the true
grouped sum of its key. -/
theorem C5_top_n_chart (df : DataFrame) (g v : String) (n : Nat) (gi vi : Nat)
    (hg : idxOf? g df.columns = some gi) (hv : idxOf? v df.columns = some vi)
    (hnum : colAllNum df v = true) (hnn : colNoNull df g = true) :
    ∃ out : List (Cell × ℚ),
      create_top_n_chart df g v n = .ok ([], out) ∧
      out.length = min n (distinctGroupValues df g).length ∧
      List.Pairwise (fun a b : Cell × ℚ => b.2 ≤ a.2) out ∧
      ∀ p ∈ out, p.2 = specSum df g v p.1 := by
  have hnum' := colAllNum_spec hv hnum
  have hnn' := colNoNull_spec hg hnn
  have hgs := groupSumCol_ok hg hv hnum'
  have hfeq : (df.rows.map (fun r => r.getD gi .null)).filter (fun c => !c.isNull)
      = df.rows.map (fun r => r.getD gi .null) := by
    refine List.filter_eq_self.mpr (fun cell hc => ?_)
    rcases List.mem_map.mp hc with ⟨r, hr, hcell⟩
    rw [← hcell, hnn' r hr]
    rfl
  refine ⟨(isort (fun a b : Cell × ℚ => decide (b.2 < a.2))
      ((groupKeys df gi).map (fun k => (k, specSum df g v k)))).take n, ?_, ?_, ?_, ?_⟩
  · unfold create_top_n_chart
    rw [hg, hgs]
    rfl
  · rw [List.length_take, (perm_isort _ _).length_eq, List.length_map]
    unfold groupKeys
    rw [(perm_isort _ _).length_eq, hfeq]
    unfold distinctGroupValues colCellsD
    rw [hg]
  · refine List.Pairwise.sublist (List.take_sublist _ _) ?_
    refine pairwise_isort (fun a b hab => ?_) (fun a b hab => ?_)
      (fun a b c hab hbc => ?_) _
    · exact le_of_lt (of_decide_eq_true hab)
    · exact le_of_not_lt (of_decide_eq_false hab)
    · exact le_trans hbc hab
  · intro p hp
    have hp1 := (List.take_sublist n _).subset hp
    have hp2 := (perm_isort _ _).mem_iff.mp hp1
    rcases List.mem_map.mp hp2 with ⟨k, _, hpk⟩
    rw [← hpk]

/-- Witness for C5 on the spec's own scenario (groups A and B, import
metric, `n = 5 > k = 2`). -/
theorem C5_top_n_chart_witness :
    colAllNum ⟨[countryCol, impCol, expCol],
        [[Cell.str "A", Cell.num 10, Cell.num 5], [Cell.str "A", Cell.num 0, Cell.num 20],
          [Cell.str "B", Cell.num 7, Cell.num 7]]⟩ impCol = true ∧
      colNoNull ⟨[countryCol, impCol, expCol],
        [[Cell.str "A", Cell.num 10, Cell.num 5], [Cell.str "A", Cell.num 0, Cell.num 20],
          [Cell.str "B", Cell.num 7, Cell.num 7]]⟩ countryCol = true ∧
      (∃ out : List (Cell × ℚ),
        create_top_n_chart ⟨[countryCol, impCol, expCol],
          [[Cell.str "A", Cell.num 10, Cell.num 5], [Cell.str "A", Cell.num 0, Cell.num 20],
            [Cell.str "B", Cell.num 7, Cell.num 7]]⟩ countryCol impCol 5 = .ok ([], out) ∧
        out.length = min 5 (distinctGroupValues ⟨[countryCol, impCol, expCol],
          [[Cell.str "A", Cell.num 10, Cell.num 5], [Cell.str "A", Cell.num 0, Cell.num 20],
            [Cell.str "B", Cell.num 7, Cell.num 7]]⟩ countryCol).length ∧
        List.Pairwise (fun a b : Cell × ℚ => b.2 ≤ a.2) out ∧
        ∀ p ∈ out, p.2 = specSum ⟨[countryCol, impCol, expCol],
          [[Cell.str "A", Cell.num 10, Cell.num 5], [Cell.str "A", Cell.num 0, Cell.num 20],
            [Cell.str "B", Cell.num 7, Cell.num 7]]⟩ countryCol impCol p.1) :=
  ⟨rfl, rfl,
    C5_top_n_chart ⟨[countryCol, impCol, expCol],
      [[Cell.str "A", Cell.num 10, Cell.num 5], [Cell.str "A", Cell.num 0, Cell.num 20],
        [Cell.str "B", Cell.num 7, Cell.num 7]]⟩ countryCol impCol 5 0 1 rfl rfl rfl rfl⟩

/-- C4: `create_balance_chart` on a loader table containing the group
column and both metric columns returns rows sorted by absolute balance
descending, and each row's balance field is exactly the signed
`exportSum − importSum` of its group (import and export sums being the
true grouped sums). -/
theorem C4_balance_chart (df : DataFrame) (g : String) (n : Nat) (gi ii ei : Nat)
    (hg : idxOf? g df.columns = some gi)
    (hi : idxOf? impCol df.columns = some ii) (he : idxOf? expCol df.columns = some ei)
    (hni : colAllNum df impCol = true) (hne : colAllNum df expCol = true) :
    ∃ out : List BalanceRow,
      create_balance_chart df g n = .ok ([], out) ∧
      List.Pairwise (fun a b : BalanceRow => |b.bal| ≤ |a.bal|) out ∧
      ∀ e ∈ out, e.bal = e.expo - e.imp ∧
        e.imp = specSum df g impCol e.key ∧ e.expo = specSum df g expCol e.key := by
  have hni' := colAllNum_spec hi hni
  have hne' := colAllNum_spec he hne
  have hgs := groupSum2_ok hg hi he hni' hne'
  refine ⟨(isort (fun a b : BalanceRow => decide (|b.bal| < |a.bal|))
      (((groupKeys df gi).map
          (fun k => (k, specSum df g impCol k, specSum df g expCol k))).map
        (fun e => BalanceRow.mk e.1 e.2.1 e.2.2 (e.2.2 - e.2.1)))).take n, ?_, ?_, ?_⟩
  · unfold create_balance_chart
    rw [hg, hgs]
    rfl
  · refine List.Pairwise.sublist (List.take_sublist _ _) ?_
    refine pairwise_isort (fun a b hab => ?_) (fun a b hab => ?_)
      (fun a b c hab hbc => ?_) _
    · exact le_of_lt (of_decide_eq_true hab)
    · exact le_of_not_lt (of_decide_eq_false hab)
    · exact le_trans hbc hab
  · intro e hp
    have hp1 := (List.take_sublist n _).subset hp
    have hp2 := (perm_isort _ _).mem_iff.mp hp1
    rcases List.mem_map.mp hp2 with ⟨e2, he2, hmk⟩
    rcases List.mem_map.mp he2 with ⟨k, _, hf⟩
    rw [← hmk, ← hf]
    exact ⟨rfl, rfl, rfl⟩

/-- Witness for C4 on the spec's scenario: balances A = 15, B = 0, one row
requested. -/
theorem C4_balance_chart_witness :
    colAllNum ⟨[countryCol, impCol, expCol],
        [[Cell.str "A", Cell.num 10, Cell.num 5], [Cell.str "A", Cell.num 0, Cell.num 20],
          [Cell.str "B", Cell.num 7, Cell.num 7]]⟩ impCol = true ∧
      (∃ out : List BalanceRow,
        create_balance_chart ⟨[countryCol, impCol, expCol],
          [[Cell.str "A", Cell.num 10, Cell.num 5], [Cell.str "A", Cell.num 0, Cell.num 20],
            [Cell.str "B", Cell.num 7, Cell.num 7]]⟩ countryCol 1 = .ok ([], out) ∧
        List.Pairwise (fun a b : BalanceRow => |b.bal| ≤ |a.bal|) out ∧
        ∀ e ∈ out, e.bal = e.expo - e.imp ∧
          e.imp = specSum ⟨[countryCol, impCol, expCol],
            [[Cell.str "A", Cell.num 10, Cell.num 5], [Cell.str "A", Cell.num 0, Cell.num 20],
              [Cell.str "B", Cell.num 7, Cell.num 7]]⟩ countryCol impCol e.key ∧
          e.expo = specSum ⟨[countryCol, impCol, expCol],
            [[Cell.str "A", Cell.num 10, Cell.num 5], [Cell.str "A", Cell.num 0, Cell.num 20],
              [Cell.str "B", Cell.num 7, Cell.num 7]]⟩ countryCol expCol e.key) ∧
      create_balance_chart ⟨[countryCol, impCol, expCol],
        [[Cell.str "A", Cell.num 10, Cell.num 5], [Cell.str "A", Cell.num 0, Cell.num 20],
          [Cell.str "B", Cell.num 7, Cell.num 7]]⟩ countryCol 1
        = .ok ([], [⟨Cell.str "A", 10, 25, 15⟩]) :=
  ⟨rfl,
    C4_balance_chart ⟨[countryCol, impCol, expCol],
      [[Cell.str "A", Cell.num 10, Cell.num 5], [Cell.str "A", Cell.num 0, Cell.num 20],
        [Cell.str "B", Cell.num 7, Cell.num 7]]⟩ countryCol 1 0 1 2 rfl rfl rfl rfl rfl,
    by with_unfolding_all rfl⟩

/-- C9: `create_trade_chart`'s grouped sums conserve mass on every loader
table containing the group and metric columns (numeric metric cells,
non-null group cells): the sum of `importSum` over all groups equals the
sum of the import metric over the whole table (and likewise for exports),
and every row's group value appears among the output groups — no group is
dropped. -/
theorem C9_group_sum_conservation (df : DataFrame) (g : String) (gi ii ei : Nat)
    (hg : idxOf? g df.columns = some gi)
    (hi : idxOf? impCol df.columns = some ii) (he : idxOf? expCol df.columns = some ei)
    (hni : colAllNum df impCol = true) (hne : colAllNum df expCol = true)
    (hnn : colNoNull df g = true) :
    ∃ gs : List (Cell × ℚ × ℚ),
      create_trade_chart df g = .ok gs ∧
      (gs.map (fun e => e.2.1)).sum = totalMetric df impCol ∧
      (gs.map (fun e => e.2.2)).sum = totalMetric df expCol ∧
      ∀ r ∈ df.rows, r.getD gi .null ∈ gs.map Prod.fst := by
  have hni' := colAllNum_spec hi hni
  have hne' := colAllNum_spec he hne
  have hnn' := colNoNull_spec hg hnn
  have hgs := groupSum2_ok hg hi he hni' hne'
  have hcov : ∀ r ∈ df.rows, r.getD gi .null ∈ groupKeys df gi :=
    fun r hr => mem_groupKeys.mpr ⟨List.mem_map_of_mem _ hr, by rw [hnn' r hr]; rfl⟩
  refine ⟨_, hgs, ?_, ?_, ?_⟩
  · rw [List.map_map]
    have hcomp : ((fun (e : Cell × ℚ × ℚ) => e.2.1)
        ∘ (fun k => (k, specSum df g impCol k, specSum df g expCol k)))
        = fun k => specSum df g impCol k := rfl
    rw [hcomp, List.map_congr_left (fun k _ => specSum_eq hg hi k)]
    unfold groupRows
    rw [sum_partition (fun r => r.getD gi .null) (fun r => cellNumD (r.getD ii .null))
      (groupKeys df gi) df.rows (groupKeys_nodup df gi) hcov]
    unfold totalMetric colCellsD
    rw [hi, List.map_map]
    rfl
  · rw [List.map_map]
    have hcomp : ((fun (e : Cell × ℚ × ℚ) => e.2.2)
        ∘ (fun k => (k, specSum df g impCol k, specSum df g expCol k)))
        = fun k => specSum df g expCol k := rfl
    rw [hcomp, List.map_congr_left (fun k _ => specSum_eq hg he k)]
    unfold groupRows
    rw [sum_partition (fun r => r.getD gi .null) (fun r => cellNumD (r.getD ei .null))
      (groupKeys df gi) df.rows (groupKeys_nodup df gi) hcov]
    unfold totalMetric colCellsD
    rw [he, List.map_map]
    rfl
  · intro r hr
    have hid : ((groupKeys df gi).map
        (fun k => (k, specSum df g impCol k, specSum df g expCol k))).map Prod.fst
        = groupKeys df gi := by
      rw [List.map_map]
      exact List.map_id _
    rw [hid]
    exact hcov r hr

/-- Witness for C9 on the spec's scenario: groupSum = {A: (10, 25),
B: (7, 7)}; 10 + 7 = 17 is the whole-table import total, 25 + 7 = 32 the
export total. -/
theorem C9_group_sum_conservation_witness :
    colNoNull ⟨[countryCol, impCol, expCol],
        [[Cell.str "A", Cell.num 10, Cell.num 5], [Cell.str "A", Cell.num 0, Cell.num 20],
          [Cell.str "B", Cell.num 7, Cell.num 7]]⟩ countryCol = true ∧
      (∃ gs : List (Cell × ℚ × ℚ),
        create_trade_chart ⟨[countryCol, impCol, expCol],
          [[Cell.str "A", Cell.num 10, Cell.num 5], [Cell.str "A", Cell.num 0, Cell.num 20],
            [Cell.str "B", Cell.num 7, Cell.num 7]]⟩ countryCol = .ok gs ∧
        (gs.map (fun e => e.2.1)).sum = totalMetric ⟨[countryCol, impCol, expCol],
          [[Cell.str "A", Cell.num 10, Cell.num 5], [Cell.str "A", Cell.num 0, Cell.num 20],
            [Cell.str "B", Cell.num 7, Cell.num 7]]⟩ impCol ∧
        (gs.map (fun e => e.2.2)).sum = totalMetric ⟨[countryCol, impCol, expCol],
          [[Cell.str "A", Cell.num 10, Cell.num 5], [Cell.str "A", Cell.num 0, Cell.num 20],
            [Cell.str "B", Cell.num 7, Cell.num 7]]⟩ expCol ∧
        ∀ r ∈ (⟨[countryCol, impCol, expCol],
          [[Cell.str "A", Cell.num 10, Cell.num 5], [Cell.str "A", Cell.num 0, Cell.num 20],
            [Cell.str "B", Cell.num 7, Cell.num 7]]⟩ : DataFrame).rows,
          r.getD 0 .null ∈ gs.map Prod.fst) ∧
      create_trade_chart ⟨[countryCol, impCol, expCol],
        [[Cell.str "A", Cell.num 10, Cell.num 5], [Cell.str "A", Cell.num 0, Cell.num 20],
          [Cell.str "B", Cell.num 7, Cell.num 7]]⟩ countryCol
        = .ok [(Cell.str "A", 10, 25), (Cell.str "B", 7, 7)] :=
  ⟨rfl,
    C9_group_sum_conservation ⟨[countryCol, impCol, expCol],
      [[Cell.str "A", Cell.num 10, Cell.num 5], [Cell.str "A", Cell.num 0, Cell.num 20],
        [Cell.str "B", Cell.num 7, Cell.num 7]]⟩ countryCol 0 1 2 rfl rfl rfl rfl rfl rfl,
    by with_unfolding_all rfl⟩
